import Mathlib

/-!
Verification of the handle-validation core (`src/valid/handles.rs`) of the
naga shader-IR compiler.

The file embeds `validate_module_handles` and its helpers
(`HandleDescriptor::check_dep`, `check_dep_opt`, `into_erased`, the
per-arena traversals) shallowly in Lean.  The IR data model (`Module`,
`Handle`, `Arena`, the `TypeInner` / `ConstantInner` / `Expression` enums)
is not part of the sources under verification, only its validator is; those
parts are modelled from the specification, as noted on each definition.

Rust panics (the `unwrap` calls in `into_erased`) are modelled explicitly
by a third result state, `Outcome.panicked`, distinct from returning an
error value.
-/

namespace Naga

/-- Modelled from the spec: `Handle::index` is the 0-based position of the
entity in its arena, i.e. the ordinal minus one (the spec's example of "the
first entry of its arena (index 0)" fixes the first handle's index at 0). -/
def Handle.index (h : Nat) : Nat := h - 1

/-- Modelled from the spec: `Handle::new` wraps a raw `NonZeroU32` value as
a handle whose ordinal is that value. -/
def Handle.new (v : Nat) : Nat := v

/-- Modelled from the missing standard library: `NonZeroU32::new` succeeds
exactly on nonzero values; `unwrap` of the `None` case is a panic. -/
def NonZeroU32.new (n : Nat) : Option Nat :=
  if n = 0 then none else some n

/-- Modelled from the spec: a bad-handle error carries the handle's raw
ordinal and the name of the arena it was expected to belong to
(`spec.md` section 7). -/
structure BadHandle where
  ordinal : Nat
  arena : String
deriving DecidableEq, Repr

/-- An erased handle descriptor: a handle paired with the rendered text of
its description, the image of the Rust boxed `dyn HandleDescription`. -/
structure ErasedDescriptor where
  handle : Nat
  description : String
deriving DecidableEq, Repr

/-- Forward-dependency error, `FwdDepError` in the source: carries the
subject's and the dependency's erased descriptors. -/
structure FwdDepError where
  subject : ErasedDescriptor
  depends_on : ErasedDescriptor
deriving DecidableEq, Repr

/-- `InvalidHandleError` from the source: either a bad handle or a forward
dependency. -/
inductive InvalidHandleError where
  | bad (e : BadHandle)
  | fwdDep (e : FwdDepError)
deriving DecidableEq, Repr

/-- Result of running a piece of the validator: success, an error value
returned to the caller, or a Rust panic (an `unwrap` failure). -/
inductive Outcome (α : Type) where
  | ok (a : α)
  | err (e : InvalidHandleError)
  | panicked
deriving DecidableEq, Repr

/-- Sequencing of fallible validator steps (the `?` operator). -/
def Outcome.bind : Outcome α → (α → Outcome β) → Outcome β
  | .ok a, f => f a
  | .err e, _ => .err e
  | .panicked, _ => .panicked

/-- Discard the success value of a chain, the source's trailing
`HandleDescriptor::ok` call. -/
def Outcome.toUnit : Outcome α → Outcome Unit
  | .ok _ => .ok ()
  | .err e => .err e
  | .panicked => .panicked

/-- The `HandleDescription` trait, reduced to what the validator uses of
it: every description renders to text. -/
class HandleDescription (D : Type) where
  display : D → String

/-- `KindAndMaybeName` from the source: an entity kind plus an optional
entity name. -/
structure KindAndMaybeName where
  kind : String
  name : Option String
deriving DecidableEq, Repr

/-- `KindAndMaybeName::from_type` from the source. -/
def KindAndMaybeName.from_type (t : String) : KindAndMaybeName :=
  { kind := t, name := none }

/-- `KindAndMaybeName::with_name` from the source. -/
def KindAndMaybeName.with_name (s : KindAndMaybeName) (name : Option String) :
    KindAndMaybeName :=
  { kind := s.kind, name := name }

/-- The `Display` rendering of `KindAndMaybeName`: the kind, then the
`Debug`-quoted name when present. -/
def KindAndMaybeName.display (s : KindAndMaybeName) : String :=
  match s.name with
  | none => s.kind
  | some n => s.kind ++ " \"" ++ n ++ "\""

instance : HandleDescription KindAndMaybeName := ⟨KindAndMaybeName.display⟩

/-- `ExpressionHandleDescription` from the source. -/
structure ExpressionHandleDescription where
  kind : String
deriving DecidableEq, Repr

/-- The `Display` rendering of `ExpressionHandleDescription`. -/
def ExpressionHandleDescription.display (s : ExpressionHandleDescription) : String :=
  s.kind ++ " expression"

instance : HandleDescription ExpressionHandleDescription :=
  ⟨ExpressionHandleDescription.display⟩

instance : HandleDescription String := ⟨id⟩

/-- `HandleDescriptor` from the source: a handle paired with a description
used only for diagnostics. -/
structure HandleDescriptor (D : Type) where
  handle : Nat
  description : D
deriving DecidableEq, Repr

/-- `HandleDescriptor::new` from the source. -/
def HandleDescriptor.new (handle : Nat) (description : D) : HandleDescriptor D :=
  { handle := handle, description := description }

/-- `HandleDescriptor::into_erased` from the source: rebuilds the handle
via `NonZeroU32::new(handle.index()).unwrap()` — `none` models the panic of
that `unwrap` when the index is 0 — and erases the description to its
displayable form. -/
def HandleDescriptor.into_erased [HandleDescription D] (d : HandleDescriptor D) :
    Option ErasedDescriptor :=
  match NonZeroU32.new (Handle.index d.handle) with
  | none => none
  | some v => some { handle := Handle.new v
                     description := HandleDescription.display d.description }

/-- `HandleDescriptor::check_dep` from the source: succeed iff the
dependency's handle is strictly smaller than the subject's; otherwise build
a `FwdDepError` by erasing the subject first, then the dependency (each
erasure can panic). -/
def HandleDescriptor.check_dep [HandleDescription D] [HandleDescription D2]
    (self : HandleDescriptor D) (depends_on : HandleDescriptor D2) :
    Outcome (HandleDescriptor D) :=
  if depends_on.handle < self.handle then
    .ok self
  else
    match self.into_erased with
    | none => .panicked
    | some s =>
      match depends_on.into_erased with
      | none => .panicked
      | some d => .err (.fwdDep { subject := s, depends_on := d })

/-- `HandleDescriptor::check_dep_opt` from the source. -/
def HandleDescriptor.check_dep_opt [HandleDescription D] [HandleDescription D2]
    (self : HandleDescriptor D) (depends_on : Option (HandleDescriptor D2)) :
    Outcome (HandleDescriptor D) :=
  match depends_on with
  | some d => self.check_dep d
  | none => .ok self

/-- The rendered text of an erased descriptor, the source's
`impl Display for HandleDescriptor`: description, then the handle.  The
`Debug` form of the handle is modelled from the spec as its ordinal. -/
def ErasedDescriptor.render (d : ErasedDescriptor) : String :=
  d.description ++ " (handle " ++ toString d.handle ++ ")"

/-- The rendered text of a forward-dependency error, the source's
`thiserror` format string on `FwdDepError`. -/
def FwdDepError.render (e : FwdDepError) : String :=
  e.subject.render ++ " depends on " ++ e.depends_on.render ++
    ", which has not been processed yet"

/-- Modelled from the spec: an arena is an append-only ordered sequence;
the entity with 1-based ordinal `i` sits at list position `i - 1`. -/
abbrev Arena (α : Type) := List α

/-- Modelled from the spec: `Arena::check_contains_handle` succeeds iff
the handle's index is within the arena's populated range, and otherwise
returns a bad-handle error naming the arena (`spec.md` sections 4.1, 4.3,
7). -/
def Arena.check_contains_handle (name : String) (arena : Arena α) (h : Nat) :
    Outcome Unit :=
  if Handle.index h < arena.length then .ok ()
  else .err (.bad { ordinal := h, arena := name })

/-- The source's `try_fold(this_handle, HandleDescriptor::check_dep)`
pattern: check each dependency against the subject in declaration order,
short-circuiting on the first failure. -/
def checkDepFold [HandleDescription D] [HandleDescription D2]
    (this : HandleDescriptor D) :
    List (HandleDescriptor D2) → Outcome (HandleDescriptor D)
  | [] => .ok this
  | d :: ds => (this.check_dep d).bind fun t => checkDepFold t ds

/-- `Arena::iter().try_for_each(..)`: visit entities in ascending handle
order starting at handle `start`, stopping at the first failure. -/
def tryForEach (f : Nat → α → Outcome Unit) (start : Nat) :
    List α → Outcome Unit
  | [] => .ok ()
  | x :: xs => (f start x).bind fun _ => tryForEach f (start + 1) xs

/-- `Vec::iter().try_for_each(..)` over an unindexed sequence (as used for
entry points). -/
def tryForEachList (f : α → Outcome Unit) : List α → Outcome Unit
  | [] => .ok ()
  | x :: xs => (f x).bind fun _ => tryForEachList f xs

/-- Modelled from the spec: a struct member, carrying an optional name and
a member type handle (the fields matched by the validator). -/
structure StructMember where
  name : Option String
  ty : Nat
deriving DecidableEq, Repr

/-- Modelled from the spec: the kinds of types, with exactly the handle
payloads the validator's match arms read; leaf kinds carry no handles. -/
inductive TypeInner where
  | Scalar
  | Vector
  | Matrix
  | ValuePointer
  | Atomic
  | Image
  | Sampler
  | Pointer (base : Nat)
  | Array (base : Nat)
  | Struct (members : List StructMember)
  | BindingArray (base : Nat)
deriving DecidableEq, Repr

/-- Modelled from the spec: a type is an optional name plus its inner. -/
structure Type' where
  name : Option String
  inner : TypeInner
deriving DecidableEq, Repr

/-- Modelled from the spec: the kinds of constants; a composite carries a
type handle and component constant handles. -/
inductive ConstantInner where
  | Scalar
  | Composite (ty : Nat) (components : List Nat)
deriving DecidableEq, Repr

/-- Modelled from the spec: a constant is an optional name plus its inner. -/
structure Constant where
  name : Option String
  inner : ConstantInner
deriving DecidableEq, Repr

/-- Modelled from the spec: a global variable carries a type handle and an
optional initializer constant handle. -/
structure GlobalVariable where
  name : Option String
  ty : Nat
  init : Option Nat
deriving DecidableEq, Repr

/-- Modelled from the spec: a local variable carries a type handle and an
optional initializer constant handle. -/
structure LocalVariable where
  name : Option String
  ty : Nat
  init : Option Nat
deriving DecidableEq, Repr

/-- Modelled from the spec: an image query, whose `Size` variant carries an
optional level-of-detail expression handle. -/
inductive ImageQuery where
  | Size (level : Option Nat)
  | NumLevels
  | NumLayers
  | NumSamples
deriving DecidableEq, Repr

/-- Modelled from the spec: the kinds of expressions, with exactly the
handle payloads the validator's match arms read. -/
inductive Expression where
  | Access (base : Nat)
  | AccessIndex (base : Nat)
  | Constant (c : Nat)
  | Splat (value : Nat)
  | Swizzle (vector : Nat)
  | Compose (ty : Nat) (components : List Nat)
  | FunctionArgument (idx : Nat)
  | GlobalVariable (g : Nat)
  | LocalVariable (l : Nat)
  | Load (pointer : Nat)
  | ImageSample (image : Nat) (sampler : Nat) (coordinate : Nat)
      (array_index : Option Nat) (offset : Option Nat)
      (depth_ref : Option Nat)
  | ImageLoad (image : Nat) (coordinate : Nat)
      (array_index : Option Nat) (sample : Option Nat)
      (level : Option Nat)
  | ImageQuery (image : Nat) (query : ImageQuery)
  | Unary (expr : Nat)
  | Binary (left : Nat) (right : Nat)
  | Select (condition : Nat) (accept : Nat) (reject : Nat)
  | Derivative (expr : Nat)
  | Relational (argument : Nat)
  | Math (arg : Nat) (arg1 : Option Nat) (arg2 : Option Nat)
      (arg3 : Option Nat)
  | As (expr : Nat)
  | CallResult (function : Nat)
  | AtomicResult
  | ArrayLength (array : Nat)
deriving DecidableEq, Repr

/-- Modelled from the spec: a function carries its local-variable arena and
its expression arena (the other fields are not read by the validator). -/
structure Function where
  name : Option String
  local_variables : Arena LocalVariable
  expressions : Arena Expression
deriving DecidableEq, Repr

/-- Modelled from the spec: an entry point wraps one anonymous function. -/
structure EntryPoint where
  function : Function
deriving DecidableEq, Repr

/-- Modelled from the spec: the root module, holding the five collections
the validator traverses. -/
structure Module where
  types : Arena Type'
  constants : Arena Constant
  global_variables : Arena GlobalVariable
  functions : Arena Function
  entry_points : List EntryPoint
deriving DecidableEq, Repr

/-- The source's `desc_name_defer_kind` helper: a descriptor whose
description is the given kind together with the entity's optional name. -/
def descNameDeferKind (name : Option String) (handle : Nat) (kind : String) :
    HandleDescriptor KindAndMaybeName :=
  HandleDescriptor.new handle ((KindAndMaybeName.from_type kind).with_name name)

/-- The source's `desc` helper: a descriptor with a plain static-string
description. -/
def desc (handle : Nat) (kind : String) : HandleDescriptor String :=
  HandleDescriptor.new handle kind

/-- Validation of one entity of the types arena: the body of the first
`try_for_each` in `validate_module_handles`. -/
def validateTypeEntity (handle : Nat) (t : Type') : Outcome Unit :=
  match t.inner with
  | .Scalar | .Vector | .Matrix | .ValuePointer | .Atomic | .Image
  | .Sampler => .ok ()
  | .Pointer base =>
    ((descNameDeferKind t.name handle "pointer type").check_dep
      (HandleDescriptor.new base "base type")).toUnit
  | .Array base =>
    ((descNameDeferKind t.name handle "array type").check_dep
      (HandleDescriptor.new base "base type")).toUnit
  | .Struct members =>
    (checkDepFold (descNameDeferKind t.name handle "structure")
      (members.map fun m => descNameDeferKind m.name m.ty "member type")).toUnit
  | .BindingArray base =>
    ((descNameDeferKind t.name handle "binding array type").check_dep
      (HandleDescriptor.new base "base type")).toUnit

/-- The types-arena pass of `validate_module_handles`. -/
def validateTypes (types : Arena Type') : Outcome Unit :=
  tryForEach validateTypeEntity 1 types

/-- The source's `validate_type` closure: an existence check against the
types arena. -/
def validate_type (types : Arena Type') (h : Nat) : Outcome Unit :=
  Arena.check_contains_handle "types" types h

/-- The source's `validate_constant` closure: an existence check against
the constants arena. -/
def validate_constant (constants : Arena Constant) (h : Nat) : Outcome Unit :=
  Arena.check_contains_handle "constants" constants h

/-- Validation of one entity of the constants arena: the body of the second
`try_for_each` in `validate_module_handles`. -/
def validateConstantEntity (types : Arena Type') (handle : Nat)
    (c : Constant) : Outcome Unit :=
  match c.inner with
  | .Scalar => .ok ()
  | .Composite ty components =>
    (validate_type types ty).bind fun _ =>
      (checkDepFold (descNameDeferKind c.name handle "constant")
        (components.map fun comp => descNameDeferKind none comp "component")).toUnit

/-- The constants-arena pass of `validate_module_handles`. -/
def validateConstants (types : Arena Type') (constants : Arena Constant) :
    Outcome Unit :=
  tryForEach (validateConstantEntity types) 1 constants

/-- Validation of one global variable: type existence, then initializer
existence when present. -/
def validateGlobalVariableEntity (types : Arena Type')
    (constants : Arena Constant) (_handle : Nat) (g : GlobalVariable) :
    Outcome Unit :=
  (validate_type types g.ty).bind fun _ =>
    match g.init with
    | some init_expr => validate_constant constants init_expr
    | none => .ok ()

/-- The global-variables pass of `validate_module_handles`. -/
def validateGlobalVariables (types : Arena Type') (constants : Arena Constant)
    (global_variables : Arena GlobalVariable) : Outcome Unit :=
  tryForEach (validateGlobalVariableEntity types constants) 1 global_variables

/-- Validation of one local variable: type existence, then initializer
existence when present. -/
def validateLocalVariableEntity (types : Arena Type')
    (constants : Arena Constant) (_handle : Nat) (l : LocalVariable) :
    Outcome Unit :=
  (validate_type types l.ty).bind fun _ =>
    match l.init with
    | some init_constant => validate_constant constants init_constant
    | none => .ok ()

/-- The source's `expr` closure: an expression-arena descriptor. -/
def exprDesc (handle : Nat) (kind : String) :
    HandleDescriptor ExpressionHandleDescription :=
  HandleDescriptor.new handle { kind := kind }

/-- The source's `expr_opt` closure. -/
def exprDescOpt (opt : Option Nat) (kind : String) :
    Option (HandleDescriptor ExpressionHandleDescription) :=
  opt.map fun handle => exprDesc handle kind

/-- Validation of one expression: the body of the `try_for_each` inside the
source's `validate_expressions` closure, with the module arenas it
captures passed explicitly. -/
def validateExpression (types : Arena Type') (constants : Arena Constant)
    (global_variables : Arena GlobalVariable) (functions : Arena Function)
    (local_variables : Arena LocalVariable) (this_handle : Nat)
    (expression : Expression) : Outcome Unit :=
  match expression with
  | .Access base | .AccessIndex base =>
    ((exprDesc this_handle "access").check_dep (exprDesc base "access base")).toUnit
  | .Constant constant =>
    validate_constant constants constant
  | .Splat value =>
    ((exprDesc this_handle "splat").check_dep (exprDesc value "splat value")).toUnit
  | .Swizzle vector =>
    ((exprDesc this_handle "swizzle").check_dep (exprDesc vector "vector")).toUnit
  | .Compose ty components =>
    (validate_type types ty).bind fun _ =>
      (checkDepFold (exprDesc this_handle "composite")
        (components.map fun component => exprDesc component "component")).toUnit
  | .FunctionArgument _ => .ok ()
  | .GlobalVariable global_variable =>
    Arena.check_contains_handle "global variables" global_variables global_variable
  | .LocalVariable local_variable =>
    Arena.check_contains_handle "local variables" local_variables local_variable
  | .Load pointer =>
    ((exprDesc this_handle "load").check_dep (exprDesc pointer "pointee")).toUnit
  | .ImageSample image sampler coordinate array_index offset depth_ref =>
    (match offset with
     | some o => validate_constant constants o
     | none => .ok ()).bind fun _ =>
      (((((exprDesc this_handle "image sample").check_dep
            (exprDesc image "image")).bind fun s1 =>
          s1.check_dep (exprDesc sampler "sampler")).bind fun s2 =>
          s2.check_dep (exprDesc coordinate "coordinate")).bind fun s3 =>
          (s3.check_dep_opt (exprDescOpt array_index "array index")).bind fun s4 =>
          s4.check_dep_opt (exprDescOpt depth_ref "depth reference")).toUnit
  | .ImageLoad image coordinate array_index sample level =>
    ((((exprDesc this_handle "image load").check_dep
          (exprDesc image "image")).bind fun s1 =>
        (s1.check_dep (exprDesc coordinate "coordinate")).bind fun s2 =>
        (s2.check_dep_opt (exprDescOpt array_index "array index")).bind fun s3 =>
        (s3.check_dep_opt (exprDescOpt sample "sample index")).bind fun s4 =>
        s4.check_dep_opt (exprDescOpt level "level of detail"))).toUnit
  | .ImageQuery image query =>
    (((exprDesc this_handle "image query").check_dep
        (exprDesc image "image")).bind fun s1 =>
      s1.check_dep_opt
        (match query with
         | .Size level => exprDescOpt level "level of detail"
         | .NumLevels | .NumLayers | .NumSamples => none)).toUnit
  | .Unary operand =>
    ((exprDesc this_handle "unary").check_dep
      (exprDesc operand "unary operand")).toUnit
  | .Binary left right =>
    (((exprDesc this_handle "binary").check_dep
        (exprDesc left "left operand")).bind fun s1 =>
      s1.check_dep (exprDesc right "right operand")).toUnit
  | .Select condition accept reject =>
    (((desc this_handle "`select` function call").check_dep
        (exprDesc condition "condition")).bind fun s1 =>
      (s1.check_dep (exprDesc accept "accept")).bind fun s2 =>
      s2.check_dep (exprDesc reject "reject")).toUnit
  | .Derivative argument =>
    ((exprDesc this_handle "derivative").check_dep
      (exprDesc argument "argument")).toUnit
  | .Relational argument =>
    ((desc this_handle "relational function call").check_dep
      (exprDesc argument "argument")).toUnit
  | .Math arg arg1 arg2 arg3 =>
    (((desc this_handle "math function call").check_dep
        (exprDesc arg "first argument")).bind fun s1 =>
      (s1.check_dep_opt (exprDescOpt arg1 "second argument")).bind fun s2 =>
      (s2.check_dep_opt (exprDescOpt arg2 "third argument")).bind fun s3 =>
      s3.check_dep_opt (exprDescOpt arg3 "fourth argument")).toUnit
  | .As input =>
    ((exprDesc this_handle "cast").check_dep (exprDesc input "input")).toUnit
  | .CallResult function =>
    Arena.check_contains_handle "functions" functions function
  | .AtomicResult => .ok ()
  | .ArrayLength array =>
    ((exprDesc this_handle "array length").check_dep
      (exprDesc array "array")).toUnit

/-- The source's `validate_expressions` closure: visit the expression arena
in ascending handle order. -/
def validateExpressions (types : Arena Type') (constants : Arena Constant)
    (global_variables : Arena GlobalVariable) (functions : Arena Function)
    (expressions : Arena Expression) (local_variables : Arena LocalVariable) :
    Outcome Unit :=
  tryForEach
    (validateExpression types constants global_variables functions
      local_variables) 1 expressions

/-- The source's `validate_function` closure: local variables first, then
the expression arena. -/
def validateFunction (types : Arena Type') (constants : Arena Constant)
    (global_variables : Arena GlobalVariable) (functions : Arena Function)
    (f : Function) : Outcome Unit :=
  (tryForEach (validateLocalVariableEntity types constants) 1
      f.local_variables).bind fun _ =>
    validateExpressions types constants global_variables functions
      f.expressions f.local_variables

/-- `validate_module_handles` from the source: types, then constants, then
global variables, then entry points, then functions, aborting on the first
failure. -/
def validate_module_handles (m : Module) : Outcome Unit :=
  (validateTypes m.types).bind fun _ =>
  (validateConstants m.types m.constants).bind fun _ =>
  (validateGlobalVariables m.types m.constants m.global_variables).bind fun _ =>
  (tryForEachList
      (fun entry_point =>
        validateFunction m.types m.constants m.global_variables m.functions
          entry_point.function)
      m.entry_points).bind fun _ =>
  tryForEach
    (fun _h f =>
      validateFunction m.types m.constants m.global_variables m.functions f)
    1 m.functions

/-! Concrete example modules used by counterexamples and witnesses. -/

/-- A module whose only type, at handle 1 (the first entry of the types
arena), is a pointer whose base is itself. -/
def mPointerSelfFirst : Module :=
  { types := [{ name := none, inner := .Pointer 1 }]
    constants := []
    global_variables := []
    functions := []
    entry_points := [] }

/-- The spec's example module: a scalar at handle 1 and a self-referential
pointer type at handle 2. -/
def mSpecPointerExample : Module :=
  { types := [{ name := none, inner := .Scalar },
              { name := none, inner := .Pointer 2 }]
    constants := []
    global_variables := []
    functions := []
    entry_points := [] }

/-- A module whose only type, at handle 1, is a struct with a
self-referential member type. -/
def mStructSelfFirst : Module :=
  { types := [{ name := none, inner := .Struct [{ name := none, ty := 1 }] }]
    constants := []
    global_variables := []
    functions := []
    entry_points := [] }

/-- The spec's bad-component example: a composite constant at handle 3
listing component handle 5 in a constants arena of length 4. -/
def mCompositeOutOfRange : Module :=
  { types := [{ name := none, inner := .Scalar }]
    constants := [{ name := none, inner := .Scalar },
                  { name := none, inner := .Scalar },
                  { name := none, inner := .Composite 1 [5] },
                  { name := none, inner := .Scalar }]
    global_variables := []
    functions := []
    entry_points := [] }

/-- A module with two independent defects: a function whose expression
references the nonexistent constant 99, and an entry point whose
expression references the nonexistent constant 7. -/
def mTwoDefects : Module :=
  { types := []
    constants := []
    global_variables := []
    functions := [{ name := none, local_variables := []
                    expressions := [.Constant 99] }]
    entry_points := [{ function := { name := none, local_variables := []
                                     expressions := [.Constant 7] } }] }

/-- A module with defects in two different stages: a forward-referencing
pointer type at handle 2 (types arena) and a composite constant whose type
handle 9 does not exist (constants arena). -/
def mTypesDefect : Module :=
  { types := [{ name := none, inner := .Scalar },
              { name := none, inner := .Pointer 5 }]
    constants := [{ name := none, inner := .Composite 9 [] }]
    global_variables := []
    functions := []
    entry_points := [] }

/-! The well-formedness property claim C1 asserts of a module that
validates: every handle resolves to an existing entity in its arena, and
same-arena references strictly precede the referencing entity. -/

/-- A same-arena reference precedes its referencing entity: the referenced
ordinal is strictly below the subject's ordinal and resolves within the
arena's populated range. -/
def precedes (n ordinal h : Nat) : Prop :=
  h < ordinal ∧ Handle.index h < n

/-- `precedes` lifted over an optional reference. -/
def precedesOpt (n ordinal : Nat) (oh : Option Nat) : Prop :=
  ∀ h ∈ oh, precedes n ordinal h

/-- Claim C1's property for one type at the given 1-based ordinal:
base/member type handles precede it and resolve in the types arena. -/
def typeRefsOk (nTypes ordinal : Nat) (t : Type') : Prop :=
  match t.inner with
  | .Scalar | .Vector | .Matrix | .ValuePointer | .Atomic | .Image
  | .Sampler => True
  | .Pointer base | .Array base | .BindingArray base =>
    precedes nTypes ordinal base
  | .Struct members => ∀ mem ∈ members, precedes nTypes ordinal mem.ty

/-- Claim C1's property for one constant: the composite's type handle
resolves in the types arena; component handles precede the constant and
resolve in the constants arena. -/
def constantRefsOk (nTypes nConstants ordinal : Nat) (c : Constant) : Prop :=
  match c.inner with
  | .Scalar => True
  | .Composite ty components =>
    Handle.index ty < nTypes ∧
      ∀ comp ∈ components, precedes nConstants ordinal comp

/-- Claim C1's property for one global variable: its type handle and
optional initializer handle resolve in their arenas. -/
def globalRefsOk (nTypes nConstants : Nat) (g : GlobalVariable) : Prop :=
  Handle.index g.ty < nTypes ∧ ∀ i ∈ g.init, Handle.index i < nConstants

/-- Claim C1's property for one local variable: its type handle and
optional initializer handle resolve in their arenas. -/
def localRefsOk (nTypes nConstants : Nat) (l : LocalVariable) : Prop :=
  Handle.index l.ty < nTypes ∧ ∀ i ∈ l.init, Handle.index i < nConstants

/-- Claim C1's property for one expression at the given 1-based ordinal:
same-arena (expression) operands precede it and resolve; cross-arena
handles resolve in their respective arenas. -/
def exprRefsOk (nTypes nConstants nGlobals nFunctions nLocals nExprs
    ordinal : Nat) (e : Expression) : Prop :=
  match e with
  | .Access base | .AccessIndex base => precedes nExprs ordinal base
  | .Constant c => Handle.index c < nConstants
  | .Splat v => precedes nExprs ordinal v
  | .Swizzle v => precedes nExprs ordinal v
  | .Compose ty components =>
    Handle.index ty < nTypes ∧
      ∀ comp ∈ components, precedes nExprs ordinal comp
  | .FunctionArgument _ => True
  | .GlobalVariable g => Handle.index g < nGlobals
  | .LocalVariable l => Handle.index l < nLocals
  | .Load p => precedes nExprs ordinal p
  | .ImageSample image sampler coordinate array_index offset depth_ref =>
    precedes nExprs ordinal image ∧ precedes nExprs ordinal sampler ∧
      precedes nExprs ordinal coordinate ∧
      precedesOpt nExprs ordinal array_index ∧
      (∀ o ∈ offset, Handle.index o < nConstants) ∧
      precedesOpt nExprs ordinal depth_ref
  | .ImageLoad image coordinate array_index sample level =>
    precedes nExprs ordinal image ∧ precedes nExprs ordinal coordinate ∧
      precedesOpt nExprs ordinal array_index ∧
      precedesOpt nExprs ordinal sample ∧ precedesOpt nExprs ordinal level
  | .ImageQuery image query =>
    precedes nExprs ordinal image ∧
      (match query with
       | .Size level => precedesOpt nExprs ordinal level
       | .NumLevels | .NumLayers | .NumSamples => True)
  | .Unary operand => precedes nExprs ordinal operand
  | .Binary left right =>
    precedes nExprs ordinal left ∧ precedes nExprs ordinal right
  | .Select condition accept reject =>
    precedes nExprs ordinal condition ∧ precedes nExprs ordinal accept ∧
      precedes nExprs ordinal reject
  | .Derivative argument => precedes nExprs ordinal argument
  | .Relational argument => precedes nExprs ordinal argument
  | .Math arg arg1 arg2 arg3 =>
    precedes nExprs ordinal arg ∧ precedesOpt nExprs ordinal arg1 ∧
      precedesOpt nExprs ordinal arg2 ∧ precedesOpt nExprs ordinal arg3
  | .As input => precedes nExprs ordinal input
  | .CallResult function => Handle.index function < nFunctions
  | .AtomicResult => True
  | .ArrayLength array => precedes nExprs ordinal array

/-- Claim C1's property for one function: every local variable's handles
resolve, and every expression's references are in order. -/
def functionRefsOk (nTypes nConstants nGlobals nFunctions : Nat)
    (f : Function) : Prop :=
  (∀ l ∈ f.local_variables, localRefsOk nTypes nConstants l) ∧
  (∀ i (hi : i < f.expressions.length),
    exprRefsOk nTypes nConstants nGlobals nFunctions f.local_variables.length
      f.expressions.length (1 + i) (f.expressions.get ⟨i, hi⟩))

/-- Claim C1's property for the whole module. -/
def WellFormed (m : Module) : Prop :=
  (∀ i (hi : i < m.types.length),
    typeRefsOk m.types.length (1 + i) (m.types.get ⟨i, hi⟩)) ∧
  (∀ i (hi : i < m.constants.length),
    constantRefsOk m.types.length m.constants.length (1 + i)
      (m.constants.get ⟨i, hi⟩)) ∧
  (∀ g ∈ m.global_variables,
    globalRefsOk m.types.length m.constants.length g) ∧
  (∀ f ∈ m.functions,
    functionRefsOk m.types.length m.constants.length
      m.global_variables.length m.functions.length f) ∧
  (∀ ep ∈ m.entry_points,
    functionRefsOk m.types.length m.constants.length
      m.global_variables.length m.functions.length ep.function)

/-- A legitimately ordered module exercising the entity kinds: used as the
witness input for claim C1. -/
def mGood : Module :=
  { types := [{ name := none, inner := .Scalar },
              { name := some "p", inner := .Pointer 1 },
              { name := none, inner := .Struct [{ name := none, ty := 1 },
                                                { name := some "m", ty := 2 }] }]
    constants := [{ name := none, inner := .Scalar },
                  { name := some "c", inner := .Composite 1 [1] }]
    global_variables := [{ name := some "g", ty := 2, init := some 1 }]
    functions := [{ name := some "f"
                    local_variables := [{ name := none, ty := 1, init := some 2 }]
                    expressions := [.Constant 1, .LocalVariable 1, .Binary 1 2,
                                    .CallResult 1,
                                    .ImageSample 1 2 3 none (some 2) none] }]
    entry_points := [{ function := { name := none, local_variables := []
                                     expressions := [.FunctionArgument 0,
                                                     .AtomicResult,
                                                     .GlobalVariable 1] } }] }

/-! Basic lemmas about `Outcome` sequencing. -/

@[simp]
theorem Outcome.ok_bind (a : α) (f : α → Outcome β) : (Outcome.ok a).bind f = f a := rfl

@[simp]
theorem Outcome.err_bind (e : InvalidHandleError) (f : α → Outcome β) :
    (Outcome.err e).bind f = .err e := rfl

@[simp]
theorem Outcome.panicked_bind (f : α → Outcome β) :
    (Outcome.panicked : Outcome α).bind f = .panicked := rfl

theorem Outcome.bind_assoc (a : Outcome α) (f : α → Outcome β) (g : β → Outcome γ) :
    (a.bind f).bind g = a.bind fun x => (f x).bind g := by
  cases a <;> rfl

theorem Outcome.bind_eq_ok {a : Outcome α} {f : α → Outcome β} {b : β}
    (h : a.bind f = .ok b) : ∃ x, a = .ok x ∧ f x = .ok b := by
  cases a with
  | ok x => exact ⟨x, rfl, h⟩
  | err e => exact absurd h (by simp)
  | panicked => exact absurd h (by simp)

theorem Outcome.toUnit_eq_ok {a : Outcome α} (h : a.toUnit = .ok ()) :
    ∃ x, a = .ok x := by
  cases a with
  | ok x => exact ⟨x, rfl⟩
  | err e => exact absurd h (by simp [Outcome.toUnit])
  | panicked => exact absurd h (by simp [Outcome.toUnit])

@[simp]
theorem Outcome.toUnit_ok (a : α) : (Outcome.ok a).toUnit = .ok () := rfl

@[simp]
theorem Outcome.toUnit_err (e : InvalidHandleError) :
    (Outcome.err e : Outcome α).toUnit = .err e := rfl

@[simp]
theorem Outcome.toUnit_panicked : (Outcome.panicked : Outcome α).toUnit = .panicked := rfl

/-! Characterizations of the primitive checks. -/

theorem check_dep_eq_ok {D D2 : Type} [HandleDescription D] [HandleDescription D2]
    {s t : HandleDescriptor D} {d : HandleDescriptor D2}
    (h : s.check_dep d = .ok t) : d.handle < s.handle ∧ t = s := by
  unfold HandleDescriptor.check_dep at h
  split at h
  · exact ⟨by assumption, by injection h with h; exact h.symm⟩
  · split at h <;> [exact absurd h (by simp); skip]
    split at h <;> exact absurd h (by simp)

theorem check_dep_of_lt {D D2 : Type} [HandleDescription D] [HandleDescription D2]
    {s : HandleDescriptor D} {d : HandleDescriptor D2}
    (h : d.handle < s.handle) : s.check_dep d = .ok s := by
  unfold HandleDescriptor.check_dep
  simp [h]

theorem into_erased_of_ge_two {D : Type} [HandleDescription D]
    {s : HandleDescriptor D} (h : 2 ≤ s.handle) :
    s.into_erased = some { handle := s.handle - 1
                           description := HandleDescription.display s.description } := by
  unfold HandleDescriptor.into_erased NonZeroU32.new Handle.index Handle.new
  have : ¬ (s.handle - 1 = 0) := by omega
  simp [this]

theorem into_erased_of_le_one {D : Type} [HandleDescription D]
    {s : HandleDescriptor D} (h : s.handle ≤ 1) : s.into_erased = none := by
  unfold HandleDescriptor.into_erased NonZeroU32.new Handle.index
  have : s.handle - 1 = 0 := by omega
  simp [this]

theorem check_dep_err_of_not_lt {D D2 : Type} [HandleDescription D] [HandleDescription D2]
    {s : HandleDescriptor D} {d : HandleDescriptor D2}
    (h : ¬ d.handle < s.handle) (h2 : 2 ≤ s.handle) :
    s.check_dep d = .err (.fwdDep
      { subject := { handle := s.handle - 1
                     description := HandleDescription.display s.description }
        depends_on := { handle := d.handle - 1
                        description := HandleDescription.display d.description } }) := by
  have hd2 : 2 ≤ d.handle := by omega
  unfold HandleDescriptor.check_dep
  rw [if_neg h, into_erased_of_ge_two h2, into_erased_of_ge_two hd2]

theorem check_dep_panics_of_not_lt {D D2 : Type} [HandleDescription D] [HandleDescription D2]
    {s : HandleDescriptor D} {d : HandleDescriptor D2}
    (h : ¬ d.handle < s.handle) (h1 : s.handle ≤ 1) :
    s.check_dep d = .panicked := by
  unfold HandleDescriptor.check_dep
  rw [if_neg h, into_erased_of_le_one h1]

theorem check_contains_handle_eq_ok {name : String} {arena : Arena α} {h : Nat}
    (hc : Arena.check_contains_handle name arena h = .ok ()) :
    Handle.index h < arena.length := by
  unfold Arena.check_contains_handle at hc
  split at hc
  · assumption
  · exact absurd hc (by simp)

theorem check_contains_handle_of_lt {name : String} {arena : Arena α} {h : Nat}
    (hl : Handle.index h < arena.length) :
    Arena.check_contains_handle name arena h = .ok () := by
  unfold Arena.check_contains_handle
  simp [hl]

theorem check_contains_handle_err {name : String} {arena : Arena α} {h : Nat}
    (hl : ¬ Handle.index h < arena.length) :
    Arena.check_contains_handle name arena h =
      .err (.bad { ordinal := h, arena := name }) := by
  unfold Arena.check_contains_handle
  simp [hl]

/-! Characterizations of the chained and iterated checks. -/

theorem checkDepFold_eq_ok {D D2 : Type} [HandleDescription D] [HandleDescription D2]
    {this t : HandleDescriptor D} {deps : List (HandleDescriptor D2)}
    (h : checkDepFold this deps = .ok t) :
    t = this ∧ ∀ d ∈ deps, d.handle < this.handle := by
  induction deps generalizing this with
  | nil =>
    unfold checkDepFold at h
    injection h with h
    exact ⟨h.symm, by simp⟩
  | cons d ds ih =>
    unfold checkDepFold at h
    obtain ⟨x, hx, hrest⟩ := Outcome.bind_eq_ok h
    obtain ⟨hlt, rfl⟩ := check_dep_eq_ok hx
    obtain ⟨ht, hall⟩ := ih hrest
    exact ⟨ht, by
      intro a ha
      rcases List.mem_cons.mp ha with rfl | ha
      · exact hlt
      · exact hall a ha⟩

theorem checkDepFold_of_all {D D2 : Type} [HandleDescription D] [HandleDescription D2]
    {this : HandleDescriptor D} {deps : List (HandleDescriptor D2)}
    (h : ∀ d ∈ deps, d.handle < this.handle) :
    checkDepFold this deps = .ok this := by
  induction deps with
  | nil => rfl
  | cons d ds ih =>
    unfold checkDepFold
    rw [check_dep_of_lt (h d (by simp))]
    exact ih fun a ha => h a (by simp [ha])

theorem checkDepFold_cons {D D2 : Type} [HandleDescription D] [HandleDescription D2]
    (this : HandleDescriptor D) (d : HandleDescriptor D2)
    (ds : List (HandleDescriptor D2)) :
    checkDepFold this (d :: ds) = (this.check_dep d).bind fun t => checkDepFold t ds :=
  rfl

theorem checkDepFold_first_err {D D2 : Type} [HandleDescription D] [HandleDescription D2]
    {this : HandleDescriptor D} {pre rest : List (HandleDescriptor D2)}
    {d : HandleDescriptor D2}
    (hpre : ∀ p ∈ pre, p.handle < this.handle)
    (hd : ¬ d.handle < this.handle) (h2 : 2 ≤ this.handle) :
    checkDepFold this (pre ++ d :: rest) = .err (.fwdDep
      { subject := { handle := this.handle - 1
                     description := HandleDescription.display this.description }
        depends_on := { handle := d.handle - 1
                        description := HandleDescription.display d.description } }) := by
  induction pre with
  | nil =>
    rw [List.nil_append, checkDepFold_cons, check_dep_err_of_not_lt hd h2]
    rfl
  | cons p ps ih =>
    rw [List.cons_append, checkDepFold_cons, check_dep_of_lt (hpre p (by simp))]
    exact ih fun a ha => hpre a (by simp [ha])

theorem checkDepFold_panics {D D2 : Type} [HandleDescription D] [HandleDescription D2]
    {this : HandleDescriptor D} {pre rest : List (HandleDescriptor D2)}
    {d : HandleDescriptor D2}
    (hpre : ∀ p ∈ pre, p.handle < this.handle)
    (hd : ¬ d.handle < this.handle) (h1 : this.handle ≤ 1) :
    checkDepFold this (pre ++ d :: rest) = .panicked := by
  induction pre with
  | nil =>
    rw [List.nil_append, checkDepFold_cons, check_dep_panics_of_not_lt hd h1]
    rfl
  | cons p ps ih =>
    rw [List.cons_append, checkDepFold_cons, check_dep_of_lt (hpre p (by simp))]
    exact ih fun a ha => hpre a (by simp [ha])

theorem tryForEach_eq_ok {f : Nat → α → Outcome Unit} {xs : List α} {s : Nat}
    (h : tryForEach f s xs = .ok ()) :
    ∀ i (hi : i < xs.length), f (s + i) (xs.get ⟨i, hi⟩) = .ok () := by
  induction xs generalizing s with
  | nil => intro i hi; simp at hi
  | cons x xs ih =>
    intro i hi
    unfold tryForEach at h
    obtain ⟨u, hu, hrest⟩ := Outcome.bind_eq_ok h
    match i with
    | 0 => simpa using hu
    | i + 1 =>
      have hlt : i < xs.length := by simpa using Nat.lt_of_succ_lt_succ hi
      have := ih hrest i hlt
      rw [show s + (i + 1) = s + 1 + i by omega]
      simpa using this

theorem tryForEach_cons {f : Nat → α → Outcome Unit} (s : Nat) (x : α)
    (xs : List α) :
    tryForEach f s (x :: xs) = (f s x).bind fun _ => tryForEach f (s + 1) xs :=
  rfl

theorem tryForEach_append {f : Nat → α → Outcome Unit} {s : Nat}
    {xs ys : List α} :
    tryForEach f s (xs ++ ys) =
      (tryForEach f s xs).bind fun _ => tryForEach f (s + xs.length) ys := by
  induction xs generalizing s with
  | nil => simp [tryForEach]
  | cons x xs ih =>
    rw [List.cons_append, tryForEach_cons, tryForEach_cons, Outcome.bind_assoc]
    rw [show s + (x :: xs).length = s + 1 + xs.length by
      simp only [List.length_cons]; omega]
    cases hfx : f s x with
    | ok u => simpa using ih
    | err e => rfl
    | panicked => rfl

theorem tryForEach_first_err {f : Nat → α → Outcome Unit} {s : Nat}
    {pre rest : List α} {x : α} {e : InvalidHandleError}
    (hpre : tryForEach f s pre = .ok ())
    (hx : f (s + pre.length) x = .err e) :
    tryForEach f s (pre ++ x :: rest) = .err e := by
  rw [tryForEach_append, hpre]
  simp only [Outcome.ok_bind]
  rw [tryForEach_cons, hx]
  rfl

theorem tryForEachList_eq_ok {f : α → Outcome Unit} {xs : List α}
    (h : tryForEachList f xs = .ok ()) : ∀ x ∈ xs, f x = .ok () := by
  induction xs with
  | nil => simp
  | cons x xs ih =>
    unfold tryForEachList at h
    obtain ⟨u, hu, hrest⟩ := Outcome.bind_eq_ok h
    intro a ha
    rcases List.mem_cons.mp ha with rfl | ha
    · simpa using hu
    · exact ih hrest a ha

theorem tryForEachList_cons {f : α → Outcome Unit} (x : α) (xs : List α) :
    tryForEachList f (x :: xs) = (f x).bind fun _ => tryForEachList f xs :=
  rfl

theorem tryForEachList_first_err {f : α → Outcome Unit} {pre rest : List α}
    {x : α} {e : InvalidHandleError}
    (hpre : ∀ p ∈ pre, f p = .ok ()) (hx : f x = .err e) :
    tryForEachList f (pre ++ x :: rest) = .err e := by
  induction pre with
  | nil =>
    rw [List.nil_append, tryForEachList_cons, hx]
    rfl
  | cons p ps ih =>
    rw [List.cons_append, tryForEachList_cons, hpre p (by simp)]
    simpa using ih fun a ha => hpre a (by simp [ha])

/-- Claim C8: the optional-dependency check succeeds unconditionally when
the dependency is absent, and behaves exactly like `check_dep` when it is
present. -/
theorem check_dep_opt_spec {D D2 : Type} [HandleDescription D] [HandleDescription D2]
    (s : HandleDescriptor D) :
    s.check_dep_opt (none : Option (HandleDescriptor D2)) = .ok s ∧
    ∀ d : HandleDescriptor D2, s.check_dep_opt (some d) = s.check_dep d :=
  ⟨rfl, fun _ => rfl⟩

/-- Claim C2 (counterexample): when subject and dependency are both the
first handle of the arena (ordinal 1, index 0), the failing ordering check
does not return a forward-dependency error — it panics while erasing the
subject's descriptor. -/
theorem check_dep_self_ref_first_entry_no_error :
    (desc 1 "subject kind").check_dep (desc 1 "dependency kind") = .panicked ∧
    ∀ e : FwdDepError,
      (desc 1 "subject kind").check_dep (desc 1 "dependency kind") ≠
        .err (.fwdDep e) := by
  refine ⟨rfl, fun e h => ?_⟩
  rw [show (desc 1 "subject kind").check_dep (desc 1 "dependency kind") =
        Outcome.panicked from rfl] at h
  exact Outcome.noConfusion h

/-- Claim C2 (amended): the ordering check succeeds iff the dependency's
ordinal is strictly less than the subject's; when it is equal or greater
and the subject is not the first entry of its arena, it returns a
forward-dependency error; when the subject is the first entry (ordinal 1),
constructing the error panics instead. -/
theorem check_dep_ordering_spec {D D2 : Type} [HandleDescription D] [HandleDescription D2]
    (s : HandleDescriptor D) (d : HandleDescriptor D2) :
    (s.check_dep d = .ok s ↔ d.handle < s.handle) ∧
    (¬ d.handle < s.handle → 2 ≤ s.handle →
      s.check_dep d = .err (.fwdDep
        { subject := { handle := s.handle - 1
                       description := HandleDescription.display s.description }
          depends_on := { handle := d.handle - 1
                          description := HandleDescription.display d.description } })) ∧
    (¬ d.handle < s.handle → s.handle ≤ 1 → s.check_dep d = .panicked) := by
  refine ⟨⟨fun h => (check_dep_eq_ok h).1, check_dep_of_lt⟩,
    check_dep_err_of_not_lt, check_dep_panics_of_not_lt⟩

/-- Witness for claim C2's theorem at concrete inputs: ordinals 2 < 3
succeed, and the self-reference at ordinal 3 yields the forward-dependency
error with both descriptors erased. -/
theorem check_dep_ordering_spec_witness :
    (desc 3 "constant").check_dep (desc 2 "component") = .ok (desc 3 "constant") ∧
    (desc 3 "constant").check_dep (desc 3 "component") = .err (.fwdDep
      { subject := { handle := 2, description := "constant" }
        depends_on := { handle := 2, description := "component" } }) :=
  ⟨(check_dep_ordering_spec (desc 3 "constant") (desc 2 "component")).1.mpr
      (by decide),
    (check_dep_ordering_spec (desc 3 "constant") (desc 3 "component")).2.1
      (by decide) (by decide)⟩

theorem checkDepFold_err_exists {D D2 : Type} [HandleDescription D] [HandleDescription D2]
    {this : HandleDescriptor D} {deps : List (HandleDescriptor D2)}
    (h2 : 2 ≤ this.handle) (hbroken : ∃ d ∈ deps, ¬ d.handle < this.handle) :
    ∃ e : FwdDepError, checkDepFold this deps = .err (.fwdDep e) := by
  induction deps with
  | nil => simp at hbroken
  | cons d ds ih =>
    by_cases hd : d.handle < this.handle
    · rw [checkDepFold_cons, check_dep_of_lt hd, Outcome.ok_bind]
      refine ih ?_
      obtain ⟨a, ha, hna⟩ := hbroken
      rcases List.mem_cons.mp ha with rfl | ha
      · exact absurd hd hna
      · exact ⟨a, ha, hna⟩
    · refine ⟨{ subject := { handle := this.handle - 1,
                             description := HandleDescription.display
                               this.description },
                depends_on := { handle := d.handle - 1,
                                description := HandleDescription.display
                                  d.description } }, ?_⟩
      rw [checkDepFold_cons, check_dep_err_of_not_lt hd h2]
      rfl

/-- Claim C5 (code bug): constructing a forward-dependency error is NOT
panic-free — when the subject (or the dependency) is the first entry of
its arena (index 0), the erasure step evaluates
`NonZeroU32::new(0).unwrap()` and panics.  Shown on `into_erased` itself
and on whole-module validation of a self-referential pointer type at
handle 1. -/
theorem into_erased_first_entry_panics :
    (descNameDeferKind none 1 "pointer type").into_erased = none ∧
    validate_module_handles mPointerSelfFirst = .panicked :=
  ⟨rfl, rfl⟩

/-- Claim C6 (code bug): for the spec's example (self-referential pointer
type at handle 2), the rendered error text reads "handle 1", not
"handle 2": `into_erased` rebuilds each handle from its 0-based index, so
the ordinals in the message are off by one. -/
theorem fwd_dep_error_text_off_by_one :
    validate_module_handles mSpecPointerExample = .err (.fwdDep
      { subject := { handle := 1, description := "pointer type" }
        depends_on := { handle := 1, description := "base type" } }) ∧
    FwdDepError.render
      { subject := { handle := 1, description := "pointer type" }
        depends_on := { handle := 1, description := "base type" } } =
      "pointer type (handle 1) depends on base type (handle 1), which has not been processed yet" ∧
    ("pointer type (handle 1) depends on base type (handle 1), which has not been processed yet" ≠
      "pointer type (handle 2) depends on base type (handle 2), which has not been processed yet") :=
  ⟨rfl, rfl, by decide⟩

/-- Claim C7 (counterexample): a struct at the arena's first handle whose
member type is broken makes the chained dependency check neither succeed
nor return the first failure as an error — the whole validation panics. -/
theorem struct_first_entry_dep_check_panics :
    validate_module_handles mStructSelfFirst = .panicked ∧
    ∀ e : InvalidHandleError, validate_module_handles mStructSelfFirst ≠ .err e := by
  refine ⟨rfl, fun e h => ?_⟩
  rw [show validate_module_handles mStructSelfFirst = .panicked from rfl] at h
  exact Outcome.noConfusion h

/-- Claim C7 (amended): same-arena dependencies are checked one by one in
declaration order, short-circuiting at the first failure: the chain
succeeds iff every dependency precedes the subject, and — when the subject
is not the first entry of its arena — a failing chain returns exactly the
error for the earliest broken dependency in declaration order; when the
subject is the first entry, the failing check panics while building that
error. -/
theorem checkDepFold_first_failure_spec {D D2 : Type}
    [HandleDescription D] [HandleDescription D2] (this : HandleDescriptor D)
    (pre rest : List (HandleDescriptor D2)) (d : HandleDescriptor D2) :
    (∀ deps : List (HandleDescriptor D2),
      checkDepFold this deps = .ok this ↔ ∀ a ∈ deps, a.handle < this.handle) ∧
    ((∀ p ∈ pre, p.handle < this.handle) → ¬ d.handle < this.handle →
      2 ≤ this.handle →
      checkDepFold this (pre ++ d :: rest) = .err (.fwdDep
        { subject := { handle := this.handle - 1
                       description := HandleDescription.display this.description }
          depends_on := { handle := d.handle - 1
                          description := HandleDescription.display d.description } })) ∧
    ((∀ p ∈ pre, p.handle < this.handle) → ¬ d.handle < this.handle →
      this.handle ≤ 1 →
      checkDepFold this (pre ++ d :: rest) = .panicked) := by
  refine ⟨fun deps => ⟨fun h => (checkDepFold_eq_ok h).2, checkDepFold_of_all⟩,
    checkDepFold_first_err, checkDepFold_panics⟩

/-- Witness for claim C7's theorem: a constant at handle 3 with
components at handles 1, 5, 4 — components are checked in declaration
order, and the reported failure is component 5, the earliest broken one. -/
theorem checkDepFold_first_failure_spec_witness :
    checkDepFold (descNameDeferKind none 3 "constant")
      [descNameDeferKind none 1 "component", descNameDeferKind none 2 "component"] =
      .ok (descNameDeferKind none 3 "constant") ∧
    checkDepFold (descNameDeferKind none 3 "constant")
      ([descNameDeferKind none 1 "component"] ++
        descNameDeferKind none 5 "component" :: [descNameDeferKind none 4 "component"]) =
      .err (.fwdDep
        { subject := { handle := 2, description := "constant" }
          depends_on := { handle := 4, description := "component" } }) :=
  ⟨((checkDepFold_first_failure_spec (descNameDeferKind none 3 "constant")
        [] [] (descNameDeferKind none 1 "component")).1 _).mpr (by decide),
    (checkDepFold_first_failure_spec (descNameDeferKind none 3 "constant")
        [descNameDeferKind none 1 "component"]
        [descNameDeferKind none 4 "component"]
        (descNameDeferKind none 5 "component")).2.1
      (by decide) (by decide) (by decide)⟩

/-- Claim C4 (counterexample): the spec's example — a composite constant
at handle 3 listing component handle 5 in a constants arena of length 4 —
fails with a forward-dependency error, not a bad-handle error. -/
theorem composite_out_of_range_component_not_bad :
    validate_module_handles mCompositeOutOfRange = .err (.fwdDep
      { subject := { handle := 2, description := "constant" }
        depends_on := { handle := 4, description := "component" } }) ∧
    ∀ b : BadHandle, validate_module_handles mCompositeOutOfRange ≠ .err (.bad b) := by
  refine ⟨rfl, fun b h => ?_⟩
  rw [show validate_module_handles mCompositeOutOfRange = .err (.fwdDep
      { subject := { handle := 2, description := "constant" }
        depends_on := { handle := 4, description := "component" } }) from rfl] at h
  injection h with h
  exact InvalidHandleError.noConfusion h

/-- Claim C4 (amended): a composite constant (not the first entry of the
constants arena) listing a component handle beyond the arena's populated
range makes `validate_module_handles` return a forward-dependency error:
no containment lookup is ever performed on components, so the out-of-range
component fails the ordering check instead. -/
theorem composite_out_of_range_component_fwd_err
    (m : Module) (pre rest : List Constant) (name : Option String)
    (ty : Nat) (components : List Nat)
    (hsplit : m.constants =
      pre ++ { name := name, inner := .Composite ty components } :: rest)
    (htypes : validateTypes m.types = .ok ())
    (hpre : tryForEach (validateConstantEntity m.types) 1 pre = .ok ())
    (hty : Handle.index ty < m.types.length)
    (hlen : 1 ≤ pre.length)
    (hcomp : ∃ c ∈ components, m.constants.length < c) :
    ∃ e : FwdDepError, validate_module_handles m = .err (.fwdDep e) := by
  have hsubj : 2 ≤ (descNameDeferKind name (1 + pre.length) "constant").handle := by
    show 2 ≤ 1 + pre.length
    omega
  have hbroken : ∃ a ∈ components.map fun comp =>
      descNameDeferKind none comp "component",
      ¬ a.handle < (descNameDeferKind name (1 + pre.length) "constant").handle := by
    obtain ⟨c, hc, hcl⟩ := hcomp
    refine ⟨descNameDeferKind none c "component", List.mem_map_of_mem _ hc, ?_⟩
    show ¬ c < 1 + pre.length
    have : pre.length + 1 ≤ m.constants.length := by
      rw [hsplit]
      simp
    omega
  obtain ⟨e, he⟩ := checkDepFold_err_exists hsubj hbroken
  refine ⟨e, ?_⟩
  have hentity : validateConstantEntity m.types (1 + pre.length)
      { name := name, inner := .Composite ty components } = .err (.fwdDep e) := by
    show ((validate_type m.types ty).bind fun _ =>
      (checkDepFold (descNameDeferKind name (1 + pre.length) "constant")
        (components.map fun comp =>
          descNameDeferKind none comp "component")).toUnit) = _
    have hvt : validate_type m.types ty = .ok () := check_contains_handle_of_lt hty
    rw [hvt, Outcome.ok_bind, he]
    rfl
  have hconsts : validateConstants m.types m.constants = .err (.fwdDep e) := by
    unfold validateConstants
    rw [hsplit]
    exact tryForEach_first_err hpre hentity
  unfold validate_module_handles
  rw [htypes, Outcome.ok_bind, hconsts]
  rfl

/-- Witness for claim C4's theorem at the spec's example module. -/
theorem composite_out_of_range_component_fwd_err_witness :
    ∃ e : FwdDepError,
      validate_module_handles mCompositeOutOfRange = .err (.fwdDep e) :=
  composite_out_of_range_component_fwd_err mCompositeOutOfRange
    [{ name := none, inner := .Scalar }, { name := none, inner := .Scalar }]
    [{ name := none, inner := .Scalar }] none 1 [5]
    rfl rfl rfl (by decide) (by decide) (by decide)

/-- Claim C3 (counterexample): in a module with one defective named
function (missing constant 99) and one defective entry point (missing
constant 7), the reported error is the entry point's, not the function's —
entry points are traversed before functions. -/
theorem entry_point_error_reported_before_function_error :
    validate_module_handles mTwoDefects =
      .err (.bad { ordinal := 7, arena := "constants" }) ∧
    validate_module_handles mTwoDefects ≠
      .err (.bad { ordinal := 99, arena := "constants" }) :=
  ⟨rfl, by decide⟩

/-- Claim C3 (amended): the error returned is the earliest under the
fixed traversal order — types, then constants, then global variables, then
ENTRY POINTS, then functions, visiting entities of each arena in ascending
handle order.  One conjunct per stage: with every earlier stage clean and
every earlier entity of the stage's arena clean, the first defective
entity's error is the module's error, with no assumption on any later
stage (in particular a types defect wins over everything, and an entry
point defect is reported before any functions-arena defect). -/
theorem first_error_traversal_order (m : Module) (e : InvalidHandleError) :
    (∀ (pre rest : List Type') (t : Type'),
      m.types = pre ++ t :: rest →
      tryForEach validateTypeEntity 1 pre = .ok () →
      validateTypeEntity (1 + pre.length) t = .err e →
      validate_module_handles m = .err e) ∧
    (∀ (pre rest : List Constant) (c : Constant),
      validateTypes m.types = .ok () →
      m.constants = pre ++ c :: rest →
      tryForEach (validateConstantEntity m.types) 1 pre = .ok () →
      validateConstantEntity m.types (1 + pre.length) c = .err e →
      validate_module_handles m = .err e) ∧
    (∀ (pre rest : List GlobalVariable) (g : GlobalVariable),
      validateTypes m.types = .ok () →
      validateConstants m.types m.constants = .ok () →
      m.global_variables = pre ++ g :: rest →
      tryForEach (validateGlobalVariableEntity m.types m.constants) 1
        pre = .ok () →
      validateGlobalVariableEntity m.types m.constants (1 + pre.length)
        g = .err e →
      validate_module_handles m = .err e) ∧
    (∀ (pre rest : List EntryPoint) (ep : EntryPoint),
      validateTypes m.types = .ok () →
      validateConstants m.types m.constants = .ok () →
      validateGlobalVariables m.types m.constants
        m.global_variables = .ok () →
      m.entry_points = pre ++ ep :: rest →
      (∀ p ∈ pre,
        validateFunction m.types m.constants m.global_variables m.functions
          p.function = .ok ()) →
      validateFunction m.types m.constants m.global_variables m.functions
        ep.function = .err e →
      validate_module_handles m = .err e) ∧
    (∀ (pre rest : List Function) (f : Function),
      validateTypes m.types = .ok () →
      validateConstants m.types m.constants = .ok () →
      validateGlobalVariables m.types m.constants
        m.global_variables = .ok () →
      tryForEachList
        (fun entry_point =>
          validateFunction m.types m.constants m.global_variables m.functions
            entry_point.function)
        m.entry_points = .ok () →
      m.functions = pre ++ f :: rest →
      tryForEach
        (fun _h fn =>
          validateFunction m.types m.constants m.global_variables
            m.functions fn)
        1 pre = .ok () →
      validateFunction m.types m.constants m.global_variables m.functions
        f = .err e →
      validate_module_handles m = .err e) := by
  refine ⟨fun pre rest t hsplit hpre ht => ?_,
    fun pre rest c htypes hsplit hpre hc => ?_,
    fun pre rest g htypes hconsts hsplit hpre hg => ?_,
    fun pre rest ep htypes hconsts hglobals hsplit hpre hep => ?_,
    fun pre rest f htypes hconsts hglobals heps hsplit hpre hf => ?_⟩
  · unfold validate_module_handles
    have hstage : validateTypes m.types = .err e := by
      unfold validateTypes
      rw [hsplit]
      exact tryForEach_first_err hpre ht
    rw [hstage]
    rfl
  · unfold validate_module_handles
    rw [htypes, Outcome.ok_bind]
    have hstage : validateConstants m.types m.constants = .err e := by
      unfold validateConstants
      rw [hsplit]
      exact tryForEach_first_err hpre hc
    rw [hstage]
    rfl
  · unfold validate_module_handles
    rw [htypes, Outcome.ok_bind, hconsts, Outcome.ok_bind]
    have hstage : validateGlobalVariables m.types m.constants
        m.global_variables = .err e := by
      unfold validateGlobalVariables
      rw [hsplit]
      exact tryForEach_first_err hpre hg
    rw [hstage]
    rfl
  · unfold validate_module_handles
    rw [htypes, Outcome.ok_bind, hconsts, Outcome.ok_bind, hglobals,
      Outcome.ok_bind, hsplit, tryForEachList_first_err hpre hep]
    rfl
  · unfold validate_module_handles
    rw [htypes, Outcome.ok_bind, hconsts, Outcome.ok_bind, hglobals,
      Outcome.ok_bind, heps, Outcome.ok_bind]
    rw [hsplit] at hpre hf ⊢
    exact tryForEach_first_err hpre hf

/-- Witness for claim C3's theorem: the types-arena defect of
`mTypesDefect` dominates its constants-arena defect, and the entry point's
missing constant 7 in `mTwoDefects` is reported while the functions arena
is defective. -/
theorem first_error_traversal_order_witness :
    validate_module_handles mTypesDefect = .err (.fwdDep
      { subject := { handle := 1, description := "pointer type" }
        depends_on := { handle := 4, description := "base type" } }) ∧
    validate_module_handles mTwoDefects =
      .err (.bad { ordinal := 7, arena := "constants" }) :=
  ⟨(first_error_traversal_order mTypesDefect
      (.fwdDep { subject := { handle := 1, description := "pointer type" }
                 depends_on := { handle := 4, description := "base type" } })).1
      [{ name := none, inner := .Scalar }] []
      { name := none, inner := .Pointer 5 } rfl rfl rfl,
    (first_error_traversal_order mTwoDefects
      (.bad { ordinal := 7, arena := "constants" })).2.2.2.1 []
      [] { function := { name := none, local_variables := []
                         expressions := [.Constant 7] } }
      rfl rfl rfl rfl (by simp) rfl⟩

/-- Claim C10: in an `ImageSample` expression whose offset is present, the
offset's existence check against the constants arena runs before any of
the ordering checks on the other operands: an out-of-range offset yields
its bad-handle error whatever the image, sampler, coordinate, array-index
and depth-reference operands are — even when they are forward
references. -/
theorem imageSample_offset_checked_first
    (types : Arena Type') (constants : Arena Constant)
    (global_variables : Arena GlobalVariable) (functions : Arena Function)
    (local_variables : Arena LocalVariable) (this_handle : Nat)
    (image sampler coordinate : Nat) (array_index depth_ref : Option Nat)
    (c : Nat) (hout : ¬ Handle.index c < constants.length) :
    validateExpression types constants global_variables functions
      local_variables this_handle
      (.ImageSample image sampler coordinate array_index (some c) depth_ref) =
      .err (.bad { ordinal := c, arena := "constants" }) := by
  show ((validate_constant constants c).bind _) = _
  unfold validate_constant
  rw [check_contains_handle_err hout]
  rfl

/-- Witness for claim C10's theorem: expression 1 samples with image,
sampler, coordinate operands 5, 6, 7 (all forward references) and offset
constant 9 in an empty constants arena; the result is the offset's
bad-handle error. -/
theorem imageSample_offset_checked_first_witness :
    validateExpression [] [] [] [] [] 1 (.ImageSample 5 6 7 none (some 9) none) =
      .err (.bad { ordinal := 9, arena := "constants" }) :=
  imageSample_offset_checked_first [] [] [] [] [] 1 5 6 7 none none 9 (by decide)

/-- Claim C9: a function's local-variable arena is validated completely
before its expression arena — a failing local variable is the function's
result whatever the expression arena holds — and an expression that
references a local variable is checked only for existence in that
function's local-variable arena, independently of the referencing
expression's own handle (no ordinal comparison). -/
theorem locals_before_expressions_spec
    (types : Arena Type') (constants : Arena Constant)
    (global_variables : Arena GlobalVariable) (functions : Arena Function)
    (f : Function) :
    (∀ e : InvalidHandleError,
      tryForEach (validateLocalVariableEntity types constants) 1
        f.local_variables = .err e →
      ∀ exprs : Arena Expression,
        validateFunction types constants global_variables functions
          { name := f.name, local_variables := f.local_variables
            expressions := exprs } = .err e) ∧
    (tryForEach (validateLocalVariableEntity types constants) 1
        f.local_variables = .ok () →
      validateFunction types constants global_variables functions f =
        validateExpressions types constants global_variables functions
          f.expressions f.local_variables) ∧
    (∀ (lvs : Arena LocalVariable) (i j lv : Nat),
      validateExpression types constants global_variables functions lvs i
          (.LocalVariable lv) =
        validateExpression types constants global_variables functions lvs j
          (.LocalVariable lv) ∧
      validateExpression types constants global_variables functions lvs i
          (.LocalVariable lv) =
        Arena.check_contains_handle "local variables" lvs lv) := by
  refine ⟨fun e he exprs => ?_, fun hok => ?_, fun lvs i j lv => ⟨rfl, rfl⟩⟩
  · rw [show validateFunction types constants global_variables functions
        { name := f.name, local_variables := f.local_variables
          expressions := exprs } =
        (tryForEach (validateLocalVariableEntity types constants) 1
          f.local_variables).bind fun _ =>
          validateExpressions types constants global_variables functions
            exprs f.local_variables from rfl, he]
    rfl
  · rw [show validateFunction types constants global_variables functions f =
        (tryForEach (validateLocalVariableEntity types constants) 1
          f.local_variables).bind fun _ =>
          validateExpressions types constants global_variables functions
            f.expressions f.local_variables from rfl, hok]
    rfl

/-- Witness for claim C9's theorem: a function whose only local variable
has the out-of-range type 5 fails with that bad-handle error even though
its expression arena also contains a defective expression. -/
theorem locals_before_expressions_spec_witness :
    validateFunction [{ name := none, inner := .Scalar }] [] [] []
      { name := none
        local_variables := [{ name := none, ty := 5, init := none }]
        expressions := [.Access 3] } =
      .err (.bad { ordinal := 5, arena := "types" }) :=
  (locals_before_expressions_spec [{ name := none, inner := .Scalar }] [] [] []
      { name := none
        local_variables := [{ name := none, ty := 5, init := none }]
        expressions := [.Access 3] }).1
    (.bad { ordinal := 5, arena := "types" }) rfl [.Access 3]

/-! Inversion helpers for claim C1. -/

theorem precedes_intro {h i n : Nat} (hlt : h < 1 + i) (hi : i < n) :
    precedes n (1 + i) h := by
  refine ⟨hlt, ?_⟩
  show h - 1 < n
  omega

theorem precedesOpt_intro {oh : Option Nat} {i n : Nat}
    (h : ∀ x ∈ oh, x < 1 + i) (hi : i < n) : precedesOpt n (1 + i) oh :=
  fun x hx => precedes_intro (h x hx) hi

theorem chain1_ok {D D2 : Type} [HandleDescription D] [HandleDescription D2]
    {s : HandleDescriptor D} {d : HandleDescriptor D2}
    (h : (s.check_dep d).toUnit = .ok ()) : d.handle < s.handle := by
  obtain ⟨r, hr⟩ := Outcome.toUnit_eq_ok h
  exact (check_dep_eq_ok hr).1

theorem check_dep_opt_eq_ok {D D2 : Type} [HandleDescription D] [HandleDescription D2]
    {s t : HandleDescriptor D} {od : Option (HandleDescriptor D2)}
    (h : s.check_dep_opt od = .ok t) :
    t = s ∧ ∀ d ∈ od, d.handle < s.handle := by
  cases od with
  | none =>
    have h' : Outcome.ok s = Outcome.ok t := h
    injection h' with h'
    exact ⟨h'.symm, by simp⟩
  | some d =>
    have h' : s.check_dep d = .ok t := h
    obtain ⟨hlt, rfl⟩ := check_dep_eq_ok h'
    refine ⟨rfl, fun a ha => ?_⟩
    have had : d = a := by simpa using ha
    subst had
    exact hlt

theorem check_dep_opt_expr_ok {D : Type} [HandleDescription D]
    {s t : HandleDescriptor D} {oh : Option Nat} {kind : String}
    (h : s.check_dep_opt (exprDescOpt oh kind) = .ok t) :
    t = s ∧ ∀ x ∈ oh, x < s.handle := by
  obtain ⟨hts, hall⟩ := check_dep_opt_eq_ok h
  refine ⟨hts, fun y hy => ?_⟩
  cases oh with
  | none => simp at hy
  | some x =>
    have hyx : x = y := by simpa using hy
    subst hyx
    exact hall (exprDesc x kind) (by simp [exprDescOpt])

/-! Per-entity-kind soundness lemmas for claim C1. -/

theorem validateTypeEntity_refs {i n : Nat} {t : Type'}
    (hok : validateTypeEntity (1 + i) t = .ok ()) (hi : i < n) :
    typeRefsOk n (1 + i) t := by
  obtain ⟨name, inner⟩ := t
  cases inner with
  | Scalar => trivial
  | Vector => trivial
  | Matrix => trivial
  | ValuePointer => trivial
  | Atomic => trivial
  | Image => trivial
  | Sampler => trivial
  | Pointer base => exact precedes_intro (chain1_ok hok) hi
  | Array base => exact precedes_intro (chain1_ok hok) hi
  | BindingArray base => exact precedes_intro (chain1_ok hok) hi
  | Struct members =>
    obtain ⟨r, hr⟩ := Outcome.toUnit_eq_ok hok
    obtain ⟨rfl, hall⟩ := checkDepFold_eq_ok hr
    intro mem hmem
    exact precedes_intro
      (hall (descNameDeferKind mem.name mem.ty "member type")
        (List.mem_map_of_mem _ hmem)) hi

theorem validateConstantEntity_refs {types : Arena Type'} {i nC : Nat}
    {c : Constant}
    (hok : validateConstantEntity types (1 + i) c = .ok ()) (hi : i < nC) :
    constantRefsOk types.length nC (1 + i) c := by
  obtain ⟨name, inner⟩ := c
  cases inner with
  | Scalar => trivial
  | Composite ty components =>
    obtain ⟨u, hty, hrest⟩ := Outcome.bind_eq_ok hok
    refine ⟨check_contains_handle_eq_ok hty, ?_⟩
    obtain ⟨r, hr⟩ := Outcome.toUnit_eq_ok hrest
    obtain ⟨rfl, hall⟩ := checkDepFold_eq_ok hr
    intro comp hcomp
    exact precedes_intro
      (hall (descNameDeferKind none comp "component")
        (List.mem_map_of_mem _ hcomp)) hi

theorem validateGlobalVariableEntity_refs {types : Arena Type'}
    {constants : Arena Constant} {h : Nat} {g : GlobalVariable}
    (hok : validateGlobalVariableEntity types constants h g = .ok ()) :
    globalRefsOk types.length constants.length g := by
  obtain ⟨name, ty, init⟩ := g
  obtain ⟨u, hty, hinit⟩ := Outcome.bind_eq_ok hok
  refine ⟨check_contains_handle_eq_ok hty, fun x hx => ?_⟩
  cases init with
  | none => simp at hx
  | some i0 =>
    have hxi : i0 = x := by simpa using hx
    subst hxi
    exact check_contains_handle_eq_ok hinit

theorem validateLocalVariableEntity_refs {types : Arena Type'}
    {constants : Arena Constant} {h : Nat} {l : LocalVariable}
    (hok : validateLocalVariableEntity types constants h l = .ok ()) :
    localRefsOk types.length constants.length l := by
  obtain ⟨name, ty, init⟩ := l
  obtain ⟨u, hty, hinit⟩ := Outcome.bind_eq_ok hok
  refine ⟨check_contains_handle_eq_ok hty, fun x hx => ?_⟩
  cases init with
  | none => simp at hx
  | some i0 =>
    have hxi : i0 = x := by simpa using hx
    subst hxi
    exact check_contains_handle_eq_ok hinit

theorem validateExpression_refs {types : Arena Type'} {constants : Arena Constant}
    {gvs : Arena GlobalVariable} {fns : Arena Function}
    {locals : Arena LocalVariable} {i nE : Nat} {e : Expression}
    (hok : validateExpression types constants gvs fns locals (1 + i) e = .ok ())
    (hi : i < nE) :
    exprRefsOk types.length constants.length gvs.length fns.length
      locals.length nE (1 + i) e := by
  cases e with
  | Access base => exact precedes_intro (chain1_ok hok) hi
  | AccessIndex base => exact precedes_intro (chain1_ok hok) hi
  | Constant c => exact check_contains_handle_eq_ok hok
  | Splat v => exact precedes_intro (chain1_ok hok) hi
  | Swizzle v => exact precedes_intro (chain1_ok hok) hi
  | Compose ty components =>
    obtain ⟨u, hty, hrest⟩ := Outcome.bind_eq_ok hok
    refine ⟨check_contains_handle_eq_ok hty, ?_⟩
    obtain ⟨r, hr⟩ := Outcome.toUnit_eq_ok hrest
    obtain ⟨rfl, hall⟩ := checkDepFold_eq_ok hr
    intro comp hcomp
    exact precedes_intro
      (hall (exprDesc comp "component") (List.mem_map_of_mem _ hcomp)) hi
  | FunctionArgument idx => trivial
  | GlobalVariable g => exact check_contains_handle_eq_ok hok
  | LocalVariable l => exact check_contains_handle_eq_ok hok
  | Load p => exact precedes_intro (chain1_ok hok) hi
  | ImageSample image sampler coordinate array_index offset depth_ref =>
    obtain ⟨u, hoff, hrest⟩ := Outcome.bind_eq_ok hok
    obtain ⟨t, ht⟩ := Outcome.toUnit_eq_ok hrest
    obtain ⟨x3, hx3, hf3⟩ := Outcome.bind_eq_ok ht
    obtain ⟨x2, hx2, hf2⟩ := Outcome.bind_eq_ok hx3
    obtain ⟨x1, hx1, hf1⟩ := Outcome.bind_eq_ok hx2
    obtain ⟨him, rfl⟩ := check_dep_eq_ok hx1
    obtain ⟨hsam, rfl⟩ := check_dep_eq_ok hf1
    obtain ⟨hco, rfl⟩ := check_dep_eq_ok hf2
    obtain ⟨x4, hx4, hf4⟩ := Outcome.bind_eq_ok hf3
    obtain ⟨rfl, hai⟩ := check_dep_opt_expr_ok hx4
    obtain ⟨rfl, hdr⟩ := check_dep_opt_expr_ok hf4
    refine ⟨precedes_intro him hi, precedes_intro hsam hi,
      precedes_intro hco hi, precedesOpt_intro hai hi, ?_,
      precedesOpt_intro hdr hi⟩
    intro o ho
    cases offset with
    | none => simp at ho
    | some o0 =>
      have hoo : o0 = o := by simpa using ho
      subst hoo
      exact check_contains_handle_eq_ok hoff
  | ImageLoad image coordinate array_index sample level =>
    obtain ⟨t, ht⟩ := Outcome.toUnit_eq_ok hok
    obtain ⟨x1, hx1, hf1⟩ := Outcome.bind_eq_ok ht
    obtain ⟨him, rfl⟩ := check_dep_eq_ok hx1
    obtain ⟨x2, hx2, hf2⟩ := Outcome.bind_eq_ok hf1
    obtain ⟨hco, rfl⟩ := check_dep_eq_ok hx2
    obtain ⟨x3, hx3, hf3⟩ := Outcome.bind_eq_ok hf2
    obtain ⟨rfl, hai⟩ := check_dep_opt_expr_ok hx3
    obtain ⟨x4, hx4, hf4⟩ := Outcome.bind_eq_ok hf3
    obtain ⟨rfl, hsm⟩ := check_dep_opt_expr_ok hx4
    obtain ⟨rfl, hlv⟩ := check_dep_opt_expr_ok hf4
    exact ⟨precedes_intro him hi, precedes_intro hco hi,
      precedesOpt_intro hai hi, precedesOpt_intro hsm hi,
      precedesOpt_intro hlv hi⟩
  | ImageQuery image query =>
    obtain ⟨t, ht⟩ := Outcome.toUnit_eq_ok hok
    obtain ⟨x1, hx1, hf1⟩ := Outcome.bind_eq_ok ht
    obtain ⟨him, rfl⟩ := check_dep_eq_ok hx1
    cases query with
    | Size level =>
      obtain ⟨rfl, hlv⟩ := check_dep_opt_expr_ok hf1
      exact ⟨precedes_intro him hi, precedesOpt_intro hlv hi⟩
    | NumLevels => exact ⟨precedes_intro him hi, trivial⟩
    | NumLayers => exact ⟨precedes_intro him hi, trivial⟩
    | NumSamples => exact ⟨precedes_intro him hi, trivial⟩
  | Unary operand => exact precedes_intro (chain1_ok hok) hi
  | Binary left right =>
    obtain ⟨t, ht⟩ := Outcome.toUnit_eq_ok hok
    obtain ⟨x1, hx1, hf1⟩ := Outcome.bind_eq_ok ht
    obtain ⟨hl, rfl⟩ := check_dep_eq_ok hx1
    obtain ⟨hr, _⟩ := check_dep_eq_ok hf1
    exact ⟨precedes_intro hl hi, precedes_intro hr hi⟩
  | Select condition accept reject =>
    obtain ⟨t, ht⟩ := Outcome.toUnit_eq_ok hok
    obtain ⟨x1, hx1, hf1⟩ := Outcome.bind_eq_ok ht
    obtain ⟨hc, rfl⟩ := check_dep_eq_ok hx1
    obtain ⟨x2, hx2, hf2⟩ := Outcome.bind_eq_ok hf1
    obtain ⟨ha, rfl⟩ := check_dep_eq_ok hx2
    obtain ⟨hr, _⟩ := check_dep_eq_ok hf2
    exact ⟨precedes_intro hc hi, precedes_intro ha hi, precedes_intro hr hi⟩
  | Derivative argument => exact precedes_intro (chain1_ok hok) hi
  | Relational argument => exact precedes_intro (chain1_ok hok) hi
  | Math arg arg1 arg2 arg3 =>
    obtain ⟨t, ht⟩ := Outcome.toUnit_eq_ok hok
    obtain ⟨x1, hx1, hf1⟩ := Outcome.bind_eq_ok ht
    obtain ⟨h0, rfl⟩ := check_dep_eq_ok hx1
    obtain ⟨x2, hx2, hf2⟩ := Outcome.bind_eq_ok hf1
    obtain ⟨rfl, h1⟩ := check_dep_opt_expr_ok hx2
    obtain ⟨x3, hx3, hf3⟩ := Outcome.bind_eq_ok hf2
    obtain ⟨rfl, h2⟩ := check_dep_opt_expr_ok hx3
    obtain ⟨rfl, h3⟩ := check_dep_opt_expr_ok hf3
    exact ⟨precedes_intro h0 hi, precedesOpt_intro h1 hi,
      precedesOpt_intro h2 hi, precedesOpt_intro h3 hi⟩
  | As input => exact precedes_intro (chain1_ok hok) hi
  | CallResult function => exact check_contains_handle_eq_ok hok
  | AtomicResult => trivial
  | ArrayLength array => exact precedes_intro (chain1_ok hok) hi

theorem validateFunction_refs {types : Arena Type'} {constants : Arena Constant}
    {gvs : Arena GlobalVariable} {fns : Arena Function} {f : Function}
    (h : validateFunction types constants gvs fns f = .ok ()) :
    functionRefsOk types.length constants.length gvs.length fns.length f := by
  obtain ⟨u, hlv, hex⟩ := Outcome.bind_eq_ok h
  constructor
  · intro l hl
    obtain ⟨⟨i, hi⟩, rfl⟩ := List.mem_iff_get.mp hl
    exact validateLocalVariableEntity_refs (tryForEach_eq_ok hlv i hi)
  · intro i hi
    exact validateExpression_refs (tryForEach_eq_ok hex i hi) hi

theorem validateGlobalVariables_refs {types : Arena Type'}
    {constants : Arena Constant} {gvs : Arena GlobalVariable}
    (h : validateGlobalVariables types constants gvs = .ok ()) :
    ∀ g ∈ gvs, globalRefsOk types.length constants.length g := by
  intro g hg
  obtain ⟨⟨i, hi⟩, rfl⟩ := List.mem_iff_get.mp hg
  exact validateGlobalVariableEntity_refs (tryForEach_eq_ok h i hi)

/-- Claim C1: when `validate_module_handles` returns success, every handle
occurring anywhere in the module (type base/member handles, constant
type/component handles, global-variable type/initializer handles,
local-variable type/initializer handles, and every handle inside every
expression of every function and entry point) resolves to an existing
entity in its arena, and no entity references a same-arena handle whose
ordinal is greater than or equal to its own. -/
theorem validate_module_handles_ok_wellFormed (m : Module)
    (h : validate_module_handles m = .ok ()) : WellFormed m := by
  obtain ⟨u1, ht, h⟩ := Outcome.bind_eq_ok h
  obtain ⟨u2, hc, h⟩ := Outcome.bind_eq_ok h
  obtain ⟨u3, hg, h⟩ := Outcome.bind_eq_ok h
  obtain ⟨u4, hep, hfn⟩ := Outcome.bind_eq_ok h
  refine ⟨?_, ?_, validateGlobalVariables_refs hg, ?_, ?_⟩
  · intro i hi
    exact validateTypeEntity_refs (tryForEach_eq_ok ht i hi) hi
  · intro i hi
    exact validateConstantEntity_refs (tryForEach_eq_ok hc i hi) hi
  · intro f hf
    obtain ⟨⟨i, hi⟩, rfl⟩ := List.mem_iff_get.mp hf
    exact validateFunction_refs (tryForEach_eq_ok hfn i hi)
  · intro ep hep2
    exact validateFunction_refs (tryForEachList_eq_ok hep ep hep2)

/-- Witness for claim C1's theorem: the well-ordered module `mGood`
validates successfully, so it is well-formed. -/
theorem validate_module_handles_ok_wellFormed_witness : WellFormed mGood :=
  validate_module_handles_ok_wellFormed mGood rfl

end Naga
